import Mathlib

/-!
Verification of the quad-batching D3D11 terminal rendering backend
(src/renderer/atlas/BackendD3D11.cpp) against its natural-language
specification.

The embedding is shallow: machine integers (u32, size_t, u16) become Nat
with explicit wraparound or saturation where the source can overflow;
floating-point rectangle coordinates become Rat (the cursor-inversion code
only compares, adds and subtracts coordinates); GPU calls become events
recorded in pure result structures; the CPU staging buffers become lists
whose length is the backing capacity.
-/

namespace BackendD3D11

/-- Shading type tag carried by each quad instance, selecting the pixel
stage behavior (BackendD3D11.cpp uses Background, SolidFill, DashedLine,
Passthrough, PassthroughInvert, TextClearType, TextGrayscale). -/
inductive ShadingType where
  | Background
  | TextGrayscale
  | TextClearType
  | Passthrough
  | PassthroughInvert
  | DashedLine
  | SolidFill
  deriving DecidableEq, Repr, Inhabited

/-- Four packed f32 values (xywh rectangle or texture coordinates), with
coordinates embedded as rationals. -/
structure F32x4 where
  x : Rat
  y : Rat
  z : Rat
  w : Rat
  deriving DecidableEq, Repr, Inhabited

/-- One GPU-visible quad record: screen rectangle, atlas texture
coordinates, packed u32 color and the shading type
(struct QuadInstance in the backend). -/
structure QuadInstance where
  rect : F32x4
  tex : F32x4
  color : Nat
  shadingType : ShadingType
  deriving DecidableEq, Repr, Inhabited

/-- CPU-side staging state of the quad batcher: the two backing buffers
(_instances, _indices; a list models the whole allocation, so list length
is the backing capacity) and the two logical sizes (_instancesSize,
_indicesSize). -/
structure BatcherState where
  instances : List QuadInstance
  indices : List Nat
  instancesSize : Nat
  indicesSize : Nat
  deriving DecidableEq, Repr

/-- State at the start of a frame: Render sets both logical sizes to 0
(lines 187-188); the buffers start unallocated. -/
def BatcherState.empty : BatcherState :=
  { instances := [], indices := [], instancesSize := 0, indicesSize := 0 }

/-- BackendD3D11::_bumpInstancesSize (lines 924-928): replaces _instances
with a fresh buffer of max(1024, oldCapacity * 2) elements and _indices
with a fresh buffer of 6 times that, WITHOUT copying the previous
contents (the C++ assigns a newly constructed Buffer, whose elements are
unrelated to the old ones; the model fills fresh buffers with default
elements). -/
def bumpInstancesSize (s : BatcherState) : BatcherState :=
  let newCap := max 1024 (s.instances.length * 2)
  { s with
    instances := List.replicate newCap default
    indices := List.replicate (newCap * 6) 0 }

/-- Six index-buffer writes of _appendRect: positions b..b+5 receive
off+0, off+1, off+2, off+3, off+2, off+1 (lines 916-921). -/
def setSix (l : List Nat) (b off : Nat) : List Nat :=
  (((((l.set b (off + 0)).set (b + 1) (off + 1)).set (b + 2) (off + 2)).set
    (b + 3) (off + 3)).set (b + 4) (off + 2)).set (b + 5) (off + 1)

/-- BackendD3D11::_appendRect (lines 906-922): computes off =
_instancesSize * 4, grows the backing store when the logical size has
reached the capacity, writes the quad at slot _instancesSize and six
indices at slots _indicesSize.._indicesSize+5, then advances both
logical sizes. -/
def appendRect (s : BatcherState) (q : QuadInstance) : BatcherState :=
  let off := s.instancesSize * 4
  let s2 := if s.instances.length ≤ s.instancesSize then bumpInstancesSize s else s
  { instances := s2.instances.set s2.instancesSize q
    indices := setSix s2.indices s2.indicesSize off
    instancesSize := s2.instancesSize + 1
    indicesSize := s2.indicesSize + 6 }

/-- Effect of BackendD3D11::_flushRects (lines 930-1014) on the staging
state: a call with zero queued instances is a no-op, otherwise both
logical sizes are reset to 0 (lines 1012-1013) and the staging buffers
are left as they are. -/
def flushRectsSizes (s : BatcherState) : BatcherState :=
  if s.instancesSize = 0 then s
  else { s with instancesSize := 0, indicesSize := 0 }

/-- A frame-local operation on the staging arrays. -/
inductive BatcherOp where
  | append (q : QuadInstance)
  | flush
  deriving Repr

def batcherStep (s : BatcherState) (op : BatcherOp) : BatcherState :=
  match op with
  | .append q => appendRect s q
  | .flush => flushRectsSizes s

/-- Run of a sequence of _appendRect / _flushRects calls from the
frame-initial empty state. -/
def batcherRun (ops : List BatcherOp) : BatcherState :=
  ops.foldl batcherStep BatcherState.empty

/-- Distinct quads used as concrete appended data: quad number j carries
color j + 1 (so no appended quad equals the default element). -/
def quadSeq (j : Nat) : QuadInstance :=
  { rect := default, tex := default, color := j + 1, shadingType := .SolidFill }

/-- State after k successive _appendRect calls of quadSeq 0, ...,
quadSeq (k-1) starting from the frame-initial empty state. -/
def appendSeq : Nat → BatcherState
  | 0 => BatcherState.empty
  | k + 1 => appendRect (appendSeq k) (quadSeq k)

/-- Index triangulation the spec requires of quad number i in an index
list: its six index slots hold 4i+0, 4i+1, 4i+2, 4i+3, 4i+2, 4i+1. -/
def patternOn (l : List Nat) (i : Nat) : Prop :=
  l[6 * i]? = some (4 * i) ∧
  l[6 * i + 1]? = some (4 * i + 1) ∧
  l[6 * i + 2]? = some (4 * i + 2) ∧
  l[6 * i + 3]? = some (4 * i + 3) ∧
  l[6 * i + 4]? = some (4 * i + 2) ∧
  l[6 * i + 5]? = some (4 * i + 1)

/-- Index triangulation of quad number i in the staging state. -/
def patternAt (s : BatcherState) (i : Nat) : Prop :=
  patternOn s.indices i

theorem length_setSix (l : List Nat) (b off : Nat) :
    (setSix l b off).length = l.length := by
  simp [setSix]

theorem getElem?_setSix_lt (l : List Nat) (b off : Nat) {j : Nat} (h : j < b) :
    (setSix l b off)[j]? = l[j]? := by
  unfold setSix
  rw [List.getElem?_set_ne (by omega), List.getElem?_set_ne (by omega),
    List.getElem?_set_ne (by omega), List.getElem?_set_ne (by omega),
    List.getElem?_set_ne (by omega), List.getElem?_set_ne (by omega)]

theorem getElem?_setSix_vals (l : List Nat) (b off : Nat) (h : b + 5 < l.length) :
    (setSix l b off)[b]? = some (off + 0) ∧
    (setSix l b off)[b + 1]? = some (off + 1) ∧
    (setSix l b off)[b + 2]? = some (off + 2) ∧
    (setSix l b off)[b + 3]? = some (off + 3) ∧
    (setSix l b off)[b + 4]? = some (off + 2) ∧
    (setSix l b off)[b + 5]? = some (off + 1) := by
  unfold setSix
  refine ⟨?_, ?_, ?_, ?_, ?_, ?_⟩
  · rw [List.getElem?_set_ne (by omega), List.getElem?_set_ne (by omega),
      List.getElem?_set_ne (by omega), List.getElem?_set_ne (by omega),
      List.getElem?_set_ne (by omega), List.getElem?_set_self (by omega)]
  · rw [List.getElem?_set_ne (by omega), List.getElem?_set_ne (by omega),
      List.getElem?_set_ne (by omega), List.getElem?_set_ne (by omega),
      List.getElem?_set_self (by simp; omega)]
  · rw [List.getElem?_set_ne (by omega), List.getElem?_set_ne (by omega),
      List.getElem?_set_ne (by omega), List.getElem?_set_self (by simp; omega)]
  · rw [List.getElem?_set_ne (by omega), List.getElem?_set_ne (by omega),
      List.getElem?_set_self (by simp; omega)]
  · rw [List.getElem?_set_ne (by omega), List.getElem?_set_self (by simp; omega)]
  · rw [List.getElem?_set_self (by simp; omega)]

theorem appendRect_of_room (s : BatcherState) (q : QuadInstance)
    (h : s.instancesSize < s.instances.length) :
    appendRect s q =
      { instances := s.instances.set s.instancesSize q
        indices := setSix s.indices s.indicesSize (s.instancesSize * 4)
        instancesSize := s.instancesSize + 1
        indicesSize := s.indicesSize + 6 } := by
  unfold appendRect
  rw [if_neg (by omega)]

theorem appendRect_of_full (s : BatcherState) (q : QuadInstance)
    (h : s.instances.length ≤ s.instancesSize) :
    appendRect s q =
      { instances :=
          (List.replicate (max 1024 (s.instances.length * 2)) default).set
            s.instancesSize q
        indices :=
          setSix (List.replicate (max 1024 (s.instances.length * 2) * 6) 0)
            s.indicesSize (s.instancesSize * 4)
        instancesSize := s.instancesSize + 1
        indicesSize := s.indicesSize + 6 } := by
  unfold appendRect bumpInstancesSize
  rw [if_pos h]

theorem appendRect_instancesSize (s : BatcherState) (q : QuadInstance) :
    (appendRect s q).instancesSize = s.instancesSize + 1 := by
  unfold appendRect
  split <;> simp [bumpInstancesSize]

theorem appendRect_indicesSize (s : BatcherState) (q : QuadInstance) :
    (appendRect s q).indicesSize = s.indicesSize + 6 := by
  unfold appendRect
  split <;> simp [bumpInstancesSize]

theorem appendRect_full_instances (s : BatcherState) (q : QuadInstance)
    (h : s.instances.length ≤ s.instancesSize) :
    (appendRect s q).instances =
      (List.replicate (max 1024 (s.instances.length * 2)) default).set
        s.instancesSize q := by
  rw [appendRect_of_full s q h]

theorem appendRect_full_indices (s : BatcherState) (q : QuadInstance)
    (h : s.instances.length ≤ s.instancesSize) :
    (appendRect s q).indices =
      setSix (List.replicate (max 1024 (s.instances.length * 2) * 6) 0)
        s.indicesSize (s.instancesSize * 4) := by
  rw [appendRect_of_full s q h]

/-- Six fresh index writes at the window of quad i satisfy its index
pattern. -/
theorem patternOn_setSix (l : List Nat) (i : Nat) (h : 6 * i + 5 < l.length) :
    patternOn (setSix l (6 * i) (i * 4)) i := by
  obtain ⟨v0, v1, v2, v3, v4, v5⟩ := getElem?_setSix_vals l (6 * i) (i * 4) h
  unfold patternOn
  rw [Nat.mul_comm 4 i]
  rw [Nat.add_zero] at v0
  exact ⟨v0, v1, v2, v3, v4, v5⟩

/-- Index writes strictly above the window of quad i do not disturb its
index pattern. -/
theorem patternOn_setSix_above (l : List Nat) (b off i : Nat)
    (hp : patternOn l i) (hlt : 6 * i + 5 < b) :
    patternOn (setSix l b off) i := by
  obtain ⟨p0, p1, p2, p3, p4, p5⟩ := hp
  refine ⟨?_, ?_, ?_, ?_, ?_, ?_⟩ <;>
    rw [getElem?_setSix_lt _ _ _ (by omega)]
  · exact p0
  · exact p1
  · exact p2
  · exact p3
  · exact p4
  · exact p5

/-- Closed form of the staging state after k appends, 1 ≤ k ≤ 1024: the
first growth (at the very first append, from an unallocated buffer)
loses nothing, and no further growth occurs. -/
theorem appendSeq_le_1024 (k : Nat) (h1 : 1 ≤ k) (h2 : k ≤ 1024) :
    (appendSeq k).instancesSize = k ∧
    (appendSeq k).indicesSize = 6 * k ∧
    (appendSeq k).instances.length = 1024 ∧
    (appendSeq k).indices.length = 6144 ∧
    (∀ j < k, (appendSeq k).instances[j]? = some (quadSeq j)) := by
  induction k with
  | zero => omega
  | succ n ih =>
    rcases Nat.eq_or_lt_of_le h1 with h0 | hpos
    · -- n = 0: the first append allocates fresh 1024/6144 buffers
      have hn : n = 0 := by omega
      subst hn
      rw [show appendSeq 1 = appendRect BatcherState.empty (quadSeq 0) from rfl,
        appendRect_of_full _ _ (by exact Nat.le_refl 0)]
      unfold BatcherState.empty
      dsimp only
      rw [List.length_nil]
      refine ⟨rfl, by omega, ?_, ?_, ?_⟩
      · rw [List.length_set, List.length_replicate]
        omega
      · rw [length_setSix, List.length_replicate]
        omega
      · intro j hj
        have hj0 : j = 0 := by omega
        subst hj0
        rw [List.getElem?_set_self (by rw [List.length_replicate]; omega)]
    · -- 1 ≤ n: no growth at step n + 1
      have hn1 : 1 ≤ n := by omega
      obtain ⟨e1, e2, e3, e4, e5⟩ := ih hn1 (by omega)
      rw [show appendSeq (n + 1) = appendRect (appendSeq n) (quadSeq n) from rfl,
        appendRect_of_room _ _ (by omega)]
      dsimp only
      refine ⟨by omega, by omega, ?_, ?_, ?_⟩
      · rw [List.length_set]
        exact e3
      · rw [length_setSix]
        exact e4
      · intro j hj
        rcases Nat.lt_or_ge j n with hlt | hge
        · rw [List.getElem?_set_ne (by omega)]
          exact e5 j hlt
        · have hj' : j = n := by omega
          subst hj'
          rw [e1, List.getElem?_set_self (by omega)]

/-- Invariant maintained by bounded frames: index count is six times the
instance count, buffer sizes are linked, and every queued quad has the
spec's index pattern. -/
def BatcherInv (s : BatcherState) : Prop :=
  s.indicesSize = 6 * s.instancesSize ∧
  s.indices.length = 6 * s.instances.length ∧
  s.instancesSize ≤ s.instances.length ∧
  (s.instances.length = 0 ∨ 1024 ≤ s.instances.length) ∧
  ∀ i < s.instancesSize, patternAt s i

theorem batcherInv_empty : BatcherInv BatcherState.empty := by
  refine ⟨rfl, rfl, Nat.le_refl 0, Or.inl rfl, ?_⟩
  intro i hi
  exact absurd hi (Nat.not_lt_zero i)

theorem flushRectsSizes_instancesSize (s : BatcherState) :
    (flushRectsSizes s).instancesSize = 0 := by
  unfold flushRectsSizes
  split
  · assumption
  · rfl

theorem batcherInv_flush (s : BatcherState) (h : BatcherInv s) :
    BatcherInv (flushRectsSizes s) := by
  obtain ⟨h1, h2, h3, h4, h5⟩ := h
  unfold flushRectsSizes
  split
  · exact ⟨h1, h2, h3, h4, h5⟩
  · refine ⟨rfl, h2, Nat.zero_le _, h4, ?_⟩
    intro i hi
    exact absurd hi (Nat.not_lt_zero i)

theorem batcherInv_append (s : BatcherState) (q : QuadInstance)
    (h : BatcherInv s) (hb : s.instancesSize < 1024) :
    BatcherInv (appendRect s q) := by
  obtain ⟨h1, h2, h3, h4, h5⟩ := h
  rcases h4 with h0 | hge
  · -- unallocated buffers: the growth allocates 1024/6144 and loses nothing
    have hs0 : s.instancesSize = 0 := by omega
    rw [appendRect_of_full _ _ (by omega)]
    unfold BatcherInv patternAt
    dsimp only
    rw [h0, h1, hs0]
    refine ⟨by omega, ?_, ?_, ?_, ?_⟩
    · rw [length_setSix, List.length_set, List.length_replicate, List.length_replicate]
      omega
    · rw [List.length_set, List.length_replicate]
      omega
    · right
      rw [List.length_set, List.length_replicate]
      omega
    · intro i hi
      have hi0 : i = 0 := by omega
      subst hi0
      exact patternOn_setSix _ 0 (by rw [List.length_replicate]; omega)
  · -- allocated: capacity at least 1024, no growth, everything preserved
    rw [appendRect_of_room _ _ (by omega)]
    unfold BatcherInv patternAt
    dsimp only
    refine ⟨by omega, ?_, ?_, ?_, ?_⟩
    · rw [length_setSix, List.length_set]
      exact h2
    · rw [List.length_set]
      omega
    · right
      rw [List.length_set]
      omega
    · intro i hi
      rw [h1]
      rcases Nat.lt_or_ge i s.instancesSize with hlt | hgei
      · -- previously queued quad: its six slots are below the write window
        exact patternOn_setSix_above _ _ _ _ (h5 i hlt) (by omega)
      · -- the freshly appended quad
        have hieq : i = s.instancesSize := by omega
        subst hieq
        exact patternOn_setSix _ _ (by omega)

/-- Bound of the amended C10 invariant: at most 1024 appends since the
last flush, tracked left to right (c is the append count of the current
flush-to-flush segment). -/
def appendsBounded : List BatcherOp → Nat → Bool
  | [], _ => true
  | BatcherOp.flush :: ops, _ => appendsBounded ops 0
  | BatcherOp.append _ :: ops, c => decide (c < 1024) && appendsBounded ops (c + 1)

theorem batcherInv_foldl (ops : List BatcherOp) :
    ∀ s : BatcherState, BatcherInv s →
      appendsBounded ops s.instancesSize = true →
      BatcherInv (ops.foldl batcherStep s) := by
  induction ops with
  | nil => exact fun s h _ => h
  | cons op ops ih =>
    intro s h hb
    cases op with
    | append q =>
      rw [appendsBounded] at hb
      simp only [Bool.and_eq_true, decide_eq_true_eq] at hb
      have h2 := batcherInv_append s q h hb.1
      have hsz := appendRect_instancesSize s q
      refine ih (appendRect s q) h2 ?_
      rw [hsz]
      exact hb.2
    | flush =>
      rw [appendsBounded] at hb
      have h2 := batcherInv_flush s h
      refine ih (flushRectsSizes s) h2 ?_
      rw [flushRectsSizes_instancesSize]
      exact hb

theorem appendSeq_succ (k : Nat) :
    appendSeq (k + 1) = appendRect (appendSeq k) (quadSeq k) := rfl

theorem batcherRun_append_range (k : Nat) :
    batcherRun ((List.range k).map fun j => BatcherOp.append (quadSeq j)) =
      appendSeq k := by
  induction k with
  | zero => rfl
  | succ n ih =>
    unfold batcherRun at ih ⊢
    rw [List.range_succ, List.map_append, List.foldl_append, ih]
    rfl

/-- C1: evaluation of _appendRect at the failing input. Every append adds
exactly one instance and six indices (the counts after 1025 appends are
1025 and 6 * 1025), and up to 1024 appends the queued quads are intact;
but the capacity growth triggered by append number 1025 replaces the
staging buffer without copying, so instance slot 0 afterwards holds the
fresh buffer element, not the first appended quad, contradicting the
claim that the first N slots hold the N appended quads for every N. -/
theorem appendRect_growth_discards_queued :
    (appendSeq 1024).instances[0]? = some (quadSeq 0) ∧
    (appendSeq 1025).instancesSize = 1025 ∧
    (appendSeq 1025).indicesSize = 6 * 1025 ∧
    (appendSeq 1025).instances[0]? = some default ∧
    (default : QuadInstance) ≠ quadSeq 0 := by
  obtain ⟨e1, e2, e3, e4, e5⟩ := appendSeq_le_1024 1024 (by omega) (by omega)
  have hstep : appendSeq 1025 = appendRect (appendSeq 1024) (quadSeq 1024) :=
    appendSeq_succ 1024
  refine ⟨e5 0 (by omega), ?_, ?_, ?_, by decide⟩
  · rw [hstep, appendRect_instancesSize, e1]
  · rw [hstep, appendRect_indicesSize, e2]
  · rw [hstep, appendRect_full_instances _ _ (by omega), e3, e1]
    rw [List.getElem?_set_ne (by omega), List.getElem?_replicate, if_pos (by omega)]

/-- C10 counterexample: 1025 _appendRect calls with no flush are a legal
operation sequence; afterwards the index count is still six times the
instance count, but quad 0 has lost its index pattern: its second index
slot (position 6 * 0 + 1) holds 0 instead of the required 4 * 0 + 1 = 1,
because the growth at append number 1025 replaced the index buffer
without copying. -/
theorem batcher_growth_loses_index_pattern :
    batcherRun ((List.range 1025).map fun j => BatcherOp.append (quadSeq j)) =
      appendSeq 1025 ∧
    0 < (appendSeq 1025).instancesSize ∧
    (appendSeq 1025).indices[1]? = some 0 ∧
    (0 : Nat) ≠ 4 * 0 + 1 := by
  obtain ⟨e1, e2, e3, e4, e5⟩ := appendSeq_le_1024 1024 (by omega) (by omega)
  have hstep : appendSeq 1025 = appendRect (appendSeq 1024) (quadSeq 1024) :=
    appendSeq_succ 1024
  refine ⟨batcherRun_append_range 1025, ?_, ?_, by omega⟩
  · rw [hstep, appendRect_instancesSize, e1]
    omega
  · rw [hstep, appendRect_full_indices _ _ (by omega), e3, e2, e1]
    rw [getElem?_setSix_lt _ _ _ (by omega), List.getElem?_replicate, if_pos (by omega)]

/-- Concrete operation sequence for the C10 witness: two bounded frames. -/
def opsW : List BatcherOp :=
  [BatcherOp.append (quadSeq 0), BatcherOp.append (quadSeq 1), BatcherOp.flush,
    BatcherOp.append (quadSeq 2)]

/-- C10 (amended): after any sequence of _appendRect and _flushRects calls
in which at most 1024 appends happen between consecutive flushes, the
queued index count equals six times the queued instance count, every
queued quad i has index pattern 4i+0, 4i+1, 4i+2, 4i+3, 4i+2, 4i+1, and a
further flush restores both counts to zero. -/
theorem batcher_staging_invariant (ops : List BatcherOp)
    (h : appendsBounded ops 0 = true) :
    (batcherRun ops).indicesSize = 6 * (batcherRun ops).instancesSize ∧
    (∀ i < (batcherRun ops).instancesSize, patternOn (batcherRun ops).indices i) ∧
    (flushRectsSizes (batcherRun ops)).instancesSize = 0 ∧
    (flushRectsSizes (batcherRun ops)).indicesSize = 0 := by
  have hrun : batcherRun ops = ops.foldl batcherStep BatcherState.empty := rfl
  have hinv := batcherInv_foldl ops BatcherState.empty batcherInv_empty h
  rw [← hrun] at hinv
  obtain ⟨h1, _, _, _, h5⟩ := hinv
  refine ⟨h1, h5, flushRectsSizes_instancesSize _, ?_⟩
  unfold flushRectsSizes
  split
  · omega
  · rfl

theorem batcher_staging_invariant_witness :
    appendsBounded opsW 0 = true ∧
    ((batcherRun opsW).indicesSize = 6 * (batcherRun opsW).instancesSize ∧
    (∀ i < (batcherRun opsW).instancesSize, patternOn (batcherRun opsW).indices i) ∧
    (flushRectsSizes (batcherRun opsW)).instancesSize = 0 ∧
    (flushRectsSizes (batcherRun opsW)).indicesSize = 0) :=
  ⟨by decide, batcher_staging_invariant opsW (by decide)⟩

/-- Fuel-bounded bit scan: for 1 ≤ n < 2 ^ fuel this computes the index
of the highest set bit of n, which is what _BitScanReverse returns for a
nonzero u32 (fuel 32 covers every u32 value). -/
def bsr : Nat → Nat → Nat
  | 0, _ => 0
  | fuel + 1, n => if n ≤ 1 then 0 else bsr fuel (n / 2) + 1

theorem bsr_spec (fuel : Nat) :
    ∀ n : Nat, 1 ≤ n → n < 2 ^ fuel →
      2 ^ bsr fuel n ≤ n ∧ n < 2 ^ (bsr fuel n + 1) := by
  induction fuel with
  | zero =>
    intro n h1 h2
    rw [pow_zero] at h2
    omega
  | succ f ih =>
    intro n h1 h2
    rw [bsr]
    by_cases hle : n ≤ 1
    · rw [if_pos hle]
      have hn : n = 1 := by omega
      subst hn
      constructor
      · rw [pow_zero]
      · rw [pow_one]
        omega
    · rw [if_neg hle]
      have hp : (2:Nat) ^ (f + 1) = 2 * 2 ^ f := by
        rw [pow_succ]
        ring
      obtain ⟨ihl, ihr⟩ := ih (n / 2) (by omega) (by omega)
      have hb1 : (2:Nat) ^ (bsr f (n / 2) + 1) = 2 * 2 ^ bsr f (n / 2) := by
        rw [pow_succ]
        ring
      have hb2 : (2:Nat) ^ (bsr f (n / 2) + 1 + 1) = 2 * 2 ^ (bsr f (n / 2) + 1) := by
        rw [pow_succ]
        ring
      rw [hb1, hb2]
      omega

/-- Saturating cast to u16 (::base::saturated_cast<u16>). -/
def satCast16 (n : Nat) : Nat := min n 65535

/-- Atlas sizing of BackendD3D11::_resetAtlasAndBeginDraw (lines
828-841): area = max(256 * 256, targetSize.x * targetSize.y) in u32
arithmetic, index = _BitScanReverse(area - 1), and the atlas dimensions
are the saturated u16 casts of 1 << ((index + 2) / 2) and
1 << ((index + 1) / 2). -/
def atlasDims (x y : Nat) : Nat × Nat :=
  (satCast16 (2 ^ ((bsr 32 (max 65536 ((x * y) % 2 ^ 32) - 1) + 2) / 2)),
   satCast16 (2 ^ ((bsr 32 (max 65536 ((x * y) % 2 ^ 32) - 1) + 1) / 2)))

/-- C3 counterexample: a 32769 x 32769 pixel target has area
1073807361 > 2 ^ 30, so index = 30 and 1 << ((30 + 2) / 2) = 65536
saturates to 65535 in the u16 cast — the resulting atlas width is not a
power of two, contradicting the claim for this payload. -/
theorem atlasDims_saturation_not_pow2 :
    (atlasDims 32769 32769).1 = 65535 ∧ ¬∃ k : Nat, (65535 : Nat) = 2 ^ k := by
  constructor
  · decide
  · rintro ⟨k, hk⟩
    cases k with
    | zero => exact absurd hk (by decide)
    | succ m =>
      have h2 : (2:Nat) ∣ 65535 := by
        rw [hk]
        exact dvd_pow_self 2 (Nat.succ_ne_zero m)
      omega

/-- General sizing bounds of atlasDims for areas up to 2 ^ 30 (where the
u16 saturation cannot trigger). -/
theorem atlasDims_spec (x y : Nat) (h : x * y ≤ 2 ^ 30) :
    (∃ k, (atlasDims x y).1 = 2 ^ k) ∧
    (∃ k, (atlasDims x y).2 = 2 ^ k) ∧
    max 65536 (x * y) ≤ (atlasDims x y).1 * (atlasDims x y).2 ∧
    (atlasDims x y).1 * (atlasDims x y).2 < 4 * max 65536 (x * y) := by
  have hmod : (x * y) % 2 ^ 32 = x * y := by
    apply Nat.mod_eq_of_lt
    have h32 : (2:Nat) ^ 30 < 2 ^ 32 := by norm_num
    omega
  unfold atlasDims satCast16
  rw [hmod]
  dsimp only
  set A := max 65536 (x * y) with hA
  have hA1 : 65536 ≤ A := le_max_left _ _
  have hA2 : A ≤ 2 ^ 30 := max_le (by norm_num) h
  obtain ⟨hl, hr⟩ := bsr_spec 32 (A - 1) (by omega) (by
    have h32 : (2:Nat) ^ 30 ≤ 2 ^ 32 := by norm_num
    omega)
  set i := bsr 32 (A - 1) with hi
  have hle : i ≤ 29 := by
    by_contra hgt
    push_neg at hgt
    have h30 : (2:Nat) ^ 30 ≤ 2 ^ i := Nat.pow_le_pow_right (by norm_num) (by omega)
    omega
  have hm1 : min ((2:Nat) ^ ((i + 2) / 2)) 65535 = 2 ^ ((i + 2) / 2) := by
    apply Nat.min_eq_left
    calc (2:Nat) ^ ((i + 2) / 2) ≤ 2 ^ 15 := Nat.pow_le_pow_right (by norm_num) (by omega)
    _ ≤ 65535 := by norm_num
  have hm2 : min ((2:Nat) ^ ((i + 1) / 2)) 65535 = 2 ^ ((i + 1) / 2) := by
    apply Nat.min_eq_left
    calc (2:Nat) ^ ((i + 1) / 2) ≤ 2 ^ 15 := Nat.pow_le_pow_right (by norm_num) (by omega)
    _ ≤ 65535 := by norm_num
  rw [hm1, hm2]
  have hprod : (2:Nat) ^ ((i + 2) / 2) * 2 ^ ((i + 1) / 2) = 2 ^ (i + 1) := by
    rw [← pow_add]
    congr 1
    omega
  rw [hprod]
  have hp1 : (2:Nat) ^ (i + 1) = 2 * 2 ^ i := by
    rw [pow_succ]
    ring
  exact ⟨⟨_, rfl⟩, ⟨_, rfl⟩, by omega, by omega⟩

/-- C3 (amended): for every payload whose target pixel area stays at or
below 2 ^ 30 the atlas dimensions are powers of two whose product is at
least max(65536, x * y) and below 4 times it; and a 985 x 1946 pixel
target resolves to a 2048 x 1024 atlas. Above 2 ^ 30 the u16 saturation
breaks the power-of-two property (see the counterexample). -/
theorem atlasDims_amended :
    (∀ x y : Nat, x * y ≤ 2 ^ 30 →
      (∃ k, (atlasDims x y).1 = 2 ^ k) ∧
      (∃ k, (atlasDims x y).2 = 2 ^ k) ∧
      max 65536 (x * y) ≤ (atlasDims x y).1 * (atlasDims x y).2 ∧
      (atlasDims x y).1 * (atlasDims x y).2 < 4 * max 65536 (x * y)) ∧
    atlasDims 985 1946 = (2048, 1024) :=
  ⟨fun x y h => atlasDims_spec x y h, by decide⟩

theorem atlasDims_amended_witness :
    985 * 1946 ≤ 2 ^ 30 ∧
    ((∃ k, (atlasDims 985 1946).1 = 2 ^ k) ∧
     (∃ k, (atlasDims 985 1946).2 = 2 ^ k) ∧
     max 65536 (985 * 1946) ≤ (atlasDims 985 1946).1 * (atlasDims 985 1946).2 ∧
     (atlasDims 985 1946).1 * (atlasDims 985 1946).2 < 4 * max 65536 (985 * 1946)) :=
  ⟨by norm_num, atlasDims_amended.1 985 1946 (by norm_num)⟩

/-- Modelled from the spec: the skyline rect packer operation
Pack(width, height) (stb_rect_pack, which is not among the sampled
sources) returns a placement or fails when no free skyline span fits;
the model keeps the necessary condition that a rectangle wider or
taller than the whole atlas can never be placed. -/
def packFits (atlasW atlasH boxW boxH : Nat) : Bool :=
  decide (boxW ≤ atlasW) && decide (boxH ≤ atlasH)

/-- State of the text pass relevant to one problematic glyph: current
atlas dimensions, whether the glyph is in the glyph cache, and the
number of queued quads. -/
structure TextPassState where
  atlasW : Nat
  atlasH : Nat
  glyphCached : Bool
  queued : Nat
  deriving DecidableEq, Repr

/-- Outcome of one iteration of the per-glyph loop body. -/
inductive GlyphStep where
  | drawn (s : TextPassState)
  | retry (s : TextPassState)
  deriving DecidableEq, Repr

/-- One iteration of the inner glyph loop of Render (lines 258-291) for a
single glyph with padded ink box boxW x boxH: a cache hit appends the
quad; on a miss the glyph is rasterized, and if packing fails the code
ends the draw, flushes the queued quads, resets the atlas at the size
recomputed from the target, clears the glyph cache and retries the same
glyph (the --i; continue at lines 271-272). -/
def glyphIteration (tx ty boxW boxH : Nat) (s : TextPassState) : GlyphStep :=
  if s.glyphCached then GlyphStep.drawn { s with queued := s.queued + 1 }
  else if packFits s.atlasW s.atlasH boxW boxH then
    GlyphStep.drawn { s with glyphCached := true, queued := s.queued + 1 }
  else
    GlyphStep.retry
      { atlasW := (atlasDims tx ty).1
        atlasH := (atlasDims tx ty).2
        glyphCached := false
        queued := 0 }

/-- Fuel-bounded run of the per-glyph loop: some state when the glyph is
eventually drawn, none while it keeps retrying. -/
def glyphLoop (tx ty boxW boxH : Nat) : Nat → TextPassState → Option TextPassState
  | 0, _ => none
  | fuel + 1, s =>
    match glyphIteration tx ty boxW boxH s with
    | GlyphStep.drawn s2 => some s2
    | GlyphStep.retry s2 => glyphLoop tx ty boxW boxH fuel s2

theorem glyphLoop_succ (tx ty boxW boxH fuel : Nat) (s : TextPassState) :
    glyphLoop tx ty boxW boxH (fuel + 1) s =
      match glyphIteration tx ty boxW boxH s with
      | GlyphStep.drawn s2 => some s2
      | GlyphStep.retry s2 => glyphLoop tx ty boxW boxH fuel s2 := rfl

/-- C4: evaluation at the failing input. With a 985 x 1946 target the
atlas is 2048 x 1024; a glyph whose padded ink box is 3000 x 50 can
never pack. Each failing iteration flushes, resets the atlas at the same
recomputed size, clears the cache and retries the very same glyph, so
the state returns to the same retry state and the loop never produces an
outcome for any amount of fuel: the code has no fatal path for a second
consecutive failure and retries forever. -/
theorem glyph_retry_never_fatal :
    (∀ q : Nat, glyphIteration 985 1946 3000 50
        { atlasW := 2048, atlasH := 1024, glyphCached := false, queued := q } =
      GlyphStep.retry
        { atlasW := 2048, atlasH := 1024, glyphCached := false, queued := 0 }) ∧
    (∀ fuel q, glyphLoop 985 1946 3000 50 fuel
        { atlasW := 2048, atlasH := 1024, glyphCached := false, queued := q } = none) := by
  constructor
  · intro q
    rfl
  · intro fuel
    induction fuel with
    | zero => intro q; rfl
    | succ n ih =>
      intro q
      rw [glyphLoop_succ]
      rw [show glyphIteration 985 1946 3000 50
          { atlasW := 2048, atlasH := 1024, glyphCached := false, queued := q } =
        GlyphStep.retry
          { atlasW := 2048, atlasH := 1024, glyphCached := false, queued := 0 } from rfl]
      exact ih 0

/-- Color inversion used by the invert-mode cursor (lines 447-449): XOR
with 0xC0C0C0, flipping the top two bits of each color channel. -/
def invertColor (c : Nat) : Nat := c ^^^ 0xc0c0c0

/-- Background-bitmap index the cursor code computes (line 459):
cursorRect.top * cellCount.y + cursorRect.left. -/
def cursorFillIdx (cellCountX cellCountY top left : Nat) : Nat :=
  top * cellCountY + left

/-- Row-major index of the cell at (top, left) in a bitmap whose row
stride is cellCount.x, as the background upload uses it (line 224) and
as the claim states it. -/
def rowMajorIdx (cellCountX cellCountY top left : Nat) : Nat :=
  top * cellCountX + left

/-- Color of the solid cursor fill quad in invert mode (lines 459-462):
the background-bitmap entry at the computed index, XOR 0xC0C0C0. -/
def cursorFillColor (cellCountX cellCountY : Nat) (bitmap : List Nat)
    (top left : Nat) : Nat :=
  invertColor (bitmap.getD (cursorFillIdx cellCountX cellCountY top left) 0)

/-- C5: evaluation at the failing input. With 80 columns and 25 rows
(cellCount = (80, 25)) and the cursor cell at row 1, column 0, the code
reads bitmap entry 1 * 25 + 0 = 25 — a cell of row 0 — while the
row-major bitmap with row stride cellCount.x = 80 puts the cursor cell
at 1 * 80 + 0 = 80; on a bitmap whose entry j holds color j the
appended fill color is 25 XOR 0xC0C0C0 instead of the claimed
80 XOR 0xC0C0C0. -/
theorem cursorFill_reads_wrong_cell :
    cursorFillIdx 80 25 1 0 = 25 ∧
    rowMajorIdx 80 25 1 0 = 80 ∧
    cursorFillColor 80 25 (List.range 2000) 1 0 = invertColor 25 ∧
    invertColor 25 ≠ invertColor 80 := by
  refine ⟨rfl, rfl, ?_, by decide⟩
  have hget : (List.range 2000).getD (cursorFillIdx 80 25 1 0) 0 = 25 := by
    rw [show cursorFillIdx 80 25 1 0 = 25 from rfl]
    rw [List.getD_eq_getElem?_getD, List.getElem?_range (by omega)]
    rfl
  unfold cursorFillColor
  rw [hget]

/-- Last-observed values of the generation tracker (the members compared
at lines 124 and 145-148; targetSize and cellCount are u16x2 pairs kept
as separate components). -/
structure GenState where
  generation : Nat
  fontGen : Nat
  miscGen : Nat
  targetSizeX : Nat
  targetSizeY : Nat
  cellCountX : Nat
  cellCountY : Nat
  deriving DecidableEq, Repr

/-- Generation data carried by one RenderingPayload. -/
structure GenPayload where
  generation : Nat
  fontGen : Nat
  miscGen : Nat
  targetSizeX : Nat
  targetSizeY : Nat
  cellCountX : Nat
  cellCountY : Nat
  deriving DecidableEq, Repr

/-- Which resource-recreate helpers ran during the refresh. -/
structure Rebuilds where
  sampler : Bool
  customShader : Bool
  bgBitmap : Bool
  offscreenTexture : Bool
  constBuffer : Bool
  deriving DecidableEq, Repr

def noRebuilds : Rebuilds :=
  { sampler := false, customShader := false, bgBitmap := false,
    offscreenTexture := false, constBuffer := false }

/-- Generation-refresh step of Render (lines 124-185): under the outer
overall-generation guard, compute the four change flags by comparing the
payload against the last-observed values, run the guarded recreations
(misc -> sampler and custom shader, cellCount -> background bitmap,
targetSize or misc -> offscreen texture, targetSize or font -> constant
buffer), then store generation, font, misc and cellCount; the code
stores NO new targetSize (lines 181-184). -/
def genRefresh (s : GenState) (p : GenPayload) : GenState × Rebuilds :=
  if p.generation = s.generation then (s, noRebuilds)
  else
    let fontChanged := p.fontGen != s.fontGen
    let miscChanged := p.miscGen != s.miscGen
    let targetSizeChanged :=
      (p.targetSizeX != s.targetSizeX) || (p.targetSizeY != s.targetSizeY)
    let cellCountChanged :=
      (p.cellCountX != s.cellCountX) || (p.cellCountY != s.cellCountY)
    ({ generation := p.generation
       fontGen := p.fontGen
       miscGen := p.miscGen
       targetSizeX := s.targetSizeX
       targetSizeY := s.targetSizeY
       cellCountX := p.cellCountX
       cellCountY := p.cellCountY },
     { sampler := miscChanged
       customShader := miscChanged
       bgBitmap := cellCountChanged
       offscreenTexture := targetSizeChanged || miscChanged
       constBuffer := targetSizeChanged || fontChanged })

/-- Initial observed state (default-constructed members). -/
def genState0 : GenState := ⟨0, 0, 0, 0, 0, 0, 0⟩

/-- First frame: everything fresh, target size 100 x 100. -/
def genPayload1 : GenPayload := ⟨1, 1, 1, 100, 100, 80, 25⟩

/-- Second frame: only the target size (and the overall generation)
changed, to 200 x 200. -/
def genPayload2 : GenPayload := ⟨2, 1, 1, 200, 200, 80, 25⟩

/-- C6 counterexample: after a first frame observing target size
100 x 100, a second frame that changes only the target size does NOT
recreate the sampler or the custom-shader resources (the code gates them
on the misc generation alone), and the observed target size is never
updated to the payload's value (the code stores no new targetSize), so
the claim fails on this two-frame run. -/
theorem genRefresh_counterexample :
    (genRefresh (genRefresh genState0 genPayload1).1 genPayload2).2.sampler = false ∧
    (genRefresh (genRefresh genState0 genPayload1).1 genPayload2).2.customShader = false ∧
    genPayload2.targetSizeX ≠ genPayload1.targetSizeX ∧
    genPayload2.miscGen = genPayload1.miscGen ∧
    (genRefresh (genRefresh genState0 genPayload1).1 genPayload2).1.targetSizeX = 0 ∧
    genPayload2.targetSizeX = 200 := by
  decide

/-- C6 (amended): on an overall-generation change, the sampler and the
custom-shader resources are recreated exactly when the misc generation
changed; the background bitmap exactly when the cell count differs from
the observed one; the offscreen texture exactly when the payload target
size differs from the observed one or the misc generation changed; the
constant buffer exactly when the payload target size differs from the
observed one or the font generation changed; afterwards the observed
generation, font and misc generations and cell count equal the
payload's, while the observed target size is left unchanged — the code
never stores it, so later frames keep comparing against a stale value. -/
theorem genRefresh_characterization (s : GenState) (p : GenPayload)
    (h : p.generation ≠ s.generation) :
    ((genRefresh s p).2.sampler = true ↔ p.miscGen ≠ s.miscGen) ∧
    ((genRefresh s p).2.customShader = true ↔ p.miscGen ≠ s.miscGen) ∧
    ((genRefresh s p).2.bgBitmap = true ↔
      (p.cellCountX ≠ s.cellCountX ∨ p.cellCountY ≠ s.cellCountY)) ∧
    ((genRefresh s p).2.offscreenTexture = true ↔
      ((p.targetSizeX ≠ s.targetSizeX ∨ p.targetSizeY ≠ s.targetSizeY) ∨
        p.miscGen ≠ s.miscGen)) ∧
    ((genRefresh s p).2.constBuffer = true ↔
      ((p.targetSizeX ≠ s.targetSizeX ∨ p.targetSizeY ≠ s.targetSizeY) ∨
        p.fontGen ≠ s.fontGen)) ∧
    (genRefresh s p).1.generation = p.generation ∧
    (genRefresh s p).1.fontGen = p.fontGen ∧
    (genRefresh s p).1.miscGen = p.miscGen ∧
    (genRefresh s p).1.cellCountX = p.cellCountX ∧
    (genRefresh s p).1.cellCountY = p.cellCountY ∧
    (genRefresh s p).1.targetSizeX = s.targetSizeX ∧
    (genRefresh s p).1.targetSizeY = s.targetSizeY := by
  unfold genRefresh
  rw [if_neg h]
  simp [bne_iff_ne]

theorem genRefresh_characterization_witness :
    genPayload1.generation ≠ genState0.generation ∧
    (((genRefresh genState0 genPayload1).2.sampler = true ↔
        genPayload1.miscGen ≠ genState0.miscGen) ∧
     ((genRefresh genState0 genPayload1).2.customShader = true ↔
        genPayload1.miscGen ≠ genState0.miscGen) ∧
     ((genRefresh genState0 genPayload1).2.bgBitmap = true ↔
        (genPayload1.cellCountX ≠ genState0.cellCountX ∨
          genPayload1.cellCountY ≠ genState0.cellCountY)) ∧
     ((genRefresh genState0 genPayload1).2.offscreenTexture = true ↔
        ((genPayload1.targetSizeX ≠ genState0.targetSizeX ∨
           genPayload1.targetSizeY ≠ genState0.targetSizeY) ∨
          genPayload1.miscGen ≠ genState0.miscGen)) ∧
     ((genRefresh genState0 genPayload1).2.constBuffer = true ↔
        ((genPayload1.targetSizeX ≠ genState0.targetSizeX ∨
           genPayload1.targetSizeY ≠ genState0.targetSizeY) ∨
          genPayload1.fontGen ≠ genState0.fontGen)) ∧
     (genRefresh genState0 genPayload1).1.generation = genPayload1.generation ∧
     (genRefresh genState0 genPayload1).1.fontGen = genPayload1.fontGen ∧
     (genRefresh genState0 genPayload1).1.miscGen = genPayload1.miscGen ∧
     (genRefresh genState0 genPayload1).1.cellCountX = genPayload1.cellCountX ∧
     (genRefresh genState0 genPayload1).1.cellCountY = genPayload1.cellCountY ∧
     (genRefresh genState0 genPayload1).1.targetSizeX = genState0.targetSizeX ∧
     (genRefresh genState0 genPayload1).1.targetSizeY = genState0.targetSizeY) :=
  ⟨by decide, genRefresh_characterization genState0 genPayload1 (by decide)⟩

theorem genRefresh_eq_generation (s : GenState) (p : GenPayload)
    (h : p.generation = s.generation) :
    genRefresh s p = (s, noRebuilds) := by
  unfold genRefresh
  rw [if_pos h]

/-- C7: a second Render call whose payload carries the same generation
counters as the first performs no resource-rebuild work: the refresh
step returns the observed state unchanged and every rebuild flag
(sampler, custom shader, background bitmap, offscreen texture, constant
buffer) is false. -/
theorem genRefresh_second_frame_no_work (s : GenState) (p : GenPayload) :
    genRefresh (genRefresh s p).1 p = ((genRefresh s p).1, noRebuilds) ∧
    noRebuilds.sampler = false ∧
    noRebuilds.customShader = false ∧
    noRebuilds.bgBitmap = false ∧
    noRebuilds.offscreenTexture = false ∧
    noRebuilds.constBuffer = false := by
  refine ⟨?_, rfl, rfl, rfl, rfl, rfl⟩
  apply genRefresh_eq_generation
  unfold genRefresh
  split
  · next heq => exact heq
  · rfl

/-- Sizes the flush path works with: the two logical sizes and the two
GPU buffer capacities (_instanceBufferSize, _indexBufferSize). -/
structure FlushState where
  instancesSize : Nat
  indicesSize : Nat
  instanceBufferSize : Nat
  indexBufferSize : Nat
  deriving DecidableEq, Repr

/-- GPU-visible effects of one _flushRects call. -/
structure FlushEvents where
  instanceBufferRealloc : Option Nat
  instanceBufferRebound : Bool
  indexBufferRealloc : Option Nat
  indexBufferRebound : Bool
  instanceCopySize : Option Nat
  indexCopySize : Option Nat
  draws : List Nat
  deriving DecidableEq, Repr

def noFlushEvents : FlushEvents :=
  { instanceBufferRealloc := none, instanceBufferRebound := false,
    indexBufferRealloc := none, indexBufferRebound := false,
    instanceCopySize := none, indexCopySize := none, draws := [] }

/-- Instance-buffer reallocation size of _flushRects (lines 937-941):
when the queued count exceeds the capacity, the new capacity is
max(cellCount.x * cellCount.y, size + size / 2). -/
def instanceRealloc (cx cy : Nat) (s : FlushState) : Option Nat :=
  if s.instanceBufferSize < s.instancesSize then
    some (max (cx * cy) (s.instancesSize + s.instancesSize / 2))
  else none

/-- Index-buffer reallocation size of _flushRects (lines 961-965). -/
def indexRealloc (cx cy : Nat) (s : FlushState) : Option Nat :=
  if s.indexBufferSize < s.indicesSize then
    some (max (cx * cy) (s.indicesSize + s.indicesSize / 2))
  else none

/-- BackendD3D11::_flushRects (lines 930-1014): a call with zero queued
instances returns immediately; otherwise each staging buffer whose
logical size exceeds its GPU capacity is reallocated (and rebound), the
queued contents are copied through write-discard maps, one DrawIndexed
call covering all queued indices is issued, and both logical sizes are
reset to zero. -/
def flushRects (cx cy : Nat) (s : FlushState) : FlushState × FlushEvents :=
  if s.instancesSize = 0 then (s, noFlushEvents)
  else
    ({ instancesSize := 0
       indicesSize := 0
       instanceBufferSize := (instanceRealloc cx cy s).getD s.instanceBufferSize
       indexBufferSize := (indexRealloc cx cy s).getD s.indexBufferSize },
     { instanceBufferRealloc := instanceRealloc cx cy s
       instanceBufferRebound := (instanceRealloc cx cy s).isSome
       indexBufferRealloc := indexRealloc cx cy s
       indexBufferRebound := (indexRealloc cx cy s).isSome
       instanceCopySize := some s.instancesSize
       indexCopySize := some s.indicesSize
       draws := [s.indicesSize] })

/-- C8: an empty flush performs no reallocation and issues no draw call;
a non-empty flush reallocates the instance buffer to
max(cellCount.x * cellCount.y, size + size / 2) and rebinds it exactly
when the queued count exceeds the capacity, copies the queued contents
through write-discard maps, issues exactly one indexed draw call
covering all queued indices, and resets both logical sizes to zero. -/
theorem flushRects_contract (cx cy : Nat) (s : FlushState) :
    (s.instancesSize = 0 →
      flushRects cx cy s = (s, noFlushEvents) ∧
      noFlushEvents.instanceBufferRealloc = none ∧
      noFlushEvents.indexBufferRealloc = none ∧
      noFlushEvents.draws = []) ∧
    (s.instancesSize ≠ 0 →
      (s.instanceBufferSize < s.instancesSize →
        (flushRects cx cy s).2.instanceBufferRealloc =
          some (max (cx * cy) (s.instancesSize + s.instancesSize / 2)) ∧
        (flushRects cx cy s).2.instanceBufferRebound = true ∧
        (flushRects cx cy s).1.instanceBufferSize =
          max (cx * cy) (s.instancesSize + s.instancesSize / 2)) ∧
      (s.instancesSize ≤ s.instanceBufferSize →
        (flushRects cx cy s).2.instanceBufferRealloc = none ∧
        (flushRects cx cy s).1.instanceBufferSize = s.instanceBufferSize) ∧
      (flushRects cx cy s).2.instanceCopySize = some s.instancesSize ∧
      (flushRects cx cy s).2.indexCopySize = some s.indicesSize ∧
      (flushRects cx cy s).2.draws = [s.indicesSize] ∧
      (flushRects cx cy s).1.instancesSize = 0 ∧
      (flushRects cx cy s).1.indicesSize = 0) := by
  constructor
  · intro h0
    unfold flushRects
    rw [if_pos h0]
    exact ⟨rfl, rfl, rfl, rfl⟩
  · intro h0
    unfold flushRects
    rw [if_neg h0]
    refine ⟨?_, ?_, rfl, rfl, rfl, rfl, rfl⟩
    · intro hlt
      unfold instanceRealloc
      rw [if_pos hlt]
      exact ⟨rfl, rfl, rfl⟩
    · intro hge
      unfold instanceRealloc
      rw [if_neg (by omega)]
      exact ⟨rfl, rfl⟩

theorem flushRects_contract_witness :
    ((3 : Nat) ≠ 0 ∧
      ((2 : Nat) < 3 →
        (flushRects 4 5 ⟨3, 18, 2, 2⟩).2.instanceBufferRealloc =
          some (max (4 * 5) (3 + 3 / 2)) ∧
        (flushRects 4 5 ⟨3, 18, 2, 2⟩).2.instanceBufferRebound = true ∧
        (flushRects 4 5 ⟨3, 18, 2, 2⟩).1.instanceBufferSize =
          max (4 * 5) (3 + 3 / 2)) ∧
      ((3 : Nat) ≤ 2 →
        (flushRects 4 5 ⟨3, 18, 2, 2⟩).2.instanceBufferRealloc = none ∧
        (flushRects 4 5 ⟨3, 18, 2, 2⟩).1.instanceBufferSize = 2) ∧
      (flushRects 4 5 ⟨3, 18, 2, 2⟩).2.instanceCopySize = some 3 ∧
      (flushRects 4 5 ⟨3, 18, 2, 2⟩).2.indexCopySize = some 18 ∧
      (flushRects 4 5 ⟨3, 18, 2, 2⟩).2.draws = [18] ∧
      (flushRects 4 5 ⟨3, 18, 2, 2⟩).1.instancesSize = 0 ∧
      (flushRects 4 5 ⟨3, 18, 2, 2⟩).1.indicesSize = 0) ∧
    ((0 : Nat) = 0 ∧
      (flushRects 4 5 ⟨0, 0, 2, 2⟩ = (⟨0, 0, 2, 2⟩, noFlushEvents) ∧
       noFlushEvents.instanceBufferRealloc = none ∧
       noFlushEvents.indexBufferRealloc = none ∧
       noFlushEvents.draws = [])) :=
  ⟨⟨by decide, (flushRects_contract 4 5 ⟨3, 18, 2, 2⟩).2 (by decide)⟩,
   ⟨rfl, (flushRects_contract 4 5 ⟨0, 0, 2, 2⟩).1 rfl⟩⟩

/-- Outcome of the shader-reflection chain of _recreateCustomShader
(lines 680-696): whether D3DReflect succeeded, whether constant buffer 0
and its variable 0 were obtained, whether GetDesc succeeded, and the
D3D_SVF_USED flag of the time variable. -/
structure ShaderIntrospection where
  reflectOk : Bool
  hasCBuffer0 : Bool
  hasVar0 : Bool
  descOk : Bool
  timeUsed : Bool
  deriving DecidableEq, Repr

/-- Continuous-redraw flag computed by _recreateCustomShader (lines
619-748): reset to false; with a configured custom shader path it is set
to true before compiling and, when compilation succeeded, replaced by
the time-variable used-flag provided every step of the reflection chain
succeeded; with no custom path the built-in retro branch (line 718) and
the no-shader case leave it false. RequiresContinuousRedraw (lines
523-526) returns this stored flag. -/
def recreateCustomShaderRedraw (hasCustomShaderPath compileOk : Bool)
    (si : ShaderIntrospection) (useRetroTerminalEffect : Bool) : Bool :=
  if hasCustomShaderPath then
    if compileOk then
      if si.reflectOk then
        if si.hasCBuffer0 then
          if si.hasVar0 then
            if si.descOk then si.timeUsed else true
          else true
        else true
      else true
    else true
  else if useRetroTerminalEffect then false
  else false

/-- C9: with a user-supplied custom shader that compiled successfully,
the continuous-redraw flag is false exactly when the whole reflection
chain succeeded and reported the time variable unused (any introspection
failure, or a used time variable, leaves it true); with the built-in
retro effect and no user shader it is false, and with neither it is
false. -/
theorem requiresContinuousRedraw_contract :
    (∀ (si : ShaderIntrospection) (retro : Bool),
      recreateCustomShaderRedraw true true si retro = false ↔
        (si.reflectOk = true ∧ si.hasCBuffer0 = true ∧ si.hasVar0 = true ∧
         si.descOk = true ∧ si.timeUsed = false)) ∧
    (∀ (si : ShaderIntrospection) (compileOk : Bool),
      recreateCustomShaderRedraw false compileOk si true = false) ∧
    (∀ (si : ShaderIntrospection) (compileOk : Bool),
      recreateCustomShaderRedraw false compileOk si false = false) := by
  refine ⟨?_, fun si c => rfl, fun si c => rfl⟩
  intro si retro
  obtain ⟨r, cb, v, d, t⟩ := si
  cases retro <;> cases r <;> cases cb <;> cases v <;> cases d <;> cases t <;> decide

/-- Rectangle as left/top/right/bottom coordinates (f32r). -/
structure F32R where
  left : Rat
  top : Rat
  right : Rat
  bottom : Rat
  deriving DecidableEq, Repr

/-- Conversion of an xywh rectangle to left/top/right/bottom form, as
lines 436 and 468 build rect2 and refrect2. -/
def toF32R (r : F32x4) : F32R :=
  { left := r.x, top := r.y, right := r.x + r.z, bottom := r.y + r.w }

/-- Clamping intersection of the local lambda at lines 450-456: r clipped
to the clip rectangle; the caller treats the result as non-empty when
left < right and top < bottom. -/
def intersectRect (clip r : F32R) : F32R :=
  { left := max clip.left r.left
    right := min clip.right r.right
    top := max clip.top r.top
    bottom := min clip.bottom r.bottom }

/-- Synthesized inverted copy of one queued quad (lines 470-483): for a
non-empty intersection with the cursor rectangle, the copy's position is
the clipped rectangle, its texture rectangle is translated by the clip
offset and resized to the clip size, its color is XORed with 0xC0C0C0
and a Passthrough shading type is promoted to PassthroughInvert; an
empty intersection yields nothing. -/
def synthQuad (rect2 : F32R) (ref : QuadInstance) : Option QuadInstance :=
  let rr := intersectRect rect2 (toF32R ref.rect)
  if rr.left < rr.right ∧ rr.top < rr.bottom then
    some
      { rect := { x := rr.left, y := rr.top, z := rr.right - rr.left,
                  w := rr.bottom - rr.top }
        tex := { x := ref.tex.x + (rr.left - ref.rect.x),
                 y := ref.tex.y + (rr.top - ref.rect.y),
                 z := rr.right - rr.left, w := rr.bottom - rr.top }
        color := invertColor ref.color
        shadingType := if ref.shadingType = ShadingType.Passthrough
          then ShadingType.PassthroughInvert else ref.shadingType }
  else none

/-- Modelled from the spec: the invert-cursor pass of Render (lines
445-485) iterates over and extends _vertexInstanceData, whose
declaration is not among the sampled sources; per the spec it is the
array of quad instances already queued this frame, i.e. the staging
storage _appendRect fills, so the pass is modelled on the queued-quad
list qs. The pass appends the solid inverted fill quad (via _appendRect,
line 462) and then, iterating over the entries present before the fill
was appended (the loop bound l is the size minus one, line 464),
appends one synthesized quad per non-empty intersection. -/
def cursorInvertPass (cursorRect : F32x4) (bg : Nat)
    (qs : List QuadInstance) : List QuadInstance :=
  let fill : QuadInstance :=
    { rect := cursorRect, tex := default, color := invertColor bg,
      shadingType := ShadingType.SolidFill }
  let v := qs ++ [fill]
  v ++ (v.take (v.length - 1)).filterMap (synthQuad (toF32R cursorRect))

/-- C2: the invert-cursor pass appends the inverted solid fill quad and
then exactly one synthesized quad per previously queued quad whose
rectangle has a non-empty intersection with the cursor rectangle, in
queue order, and nothing for the others; each synthesized quad carries
the geometric intersection as its position, the texture rectangle
translated by the clip offset and resized to the intersection, the
original color XOR 0xC0C0C0, and the original shading type with
Passthrough promoted to PassthroughInvert. -/
theorem cursorInvertPass_spec (cursorRect : F32x4) (bg : Nat)
    (qs : List QuadInstance) :
    cursorInvertPass cursorRect bg qs =
      (qs ++ [{ rect := cursorRect, tex := default, color := invertColor bg,
                shadingType := ShadingType.SolidFill }]) ++
        qs.filterMap (synthQuad (toF32R cursorRect)) ∧
    (∀ q : QuadInstance,
      ((intersectRect (toF32R cursorRect) (toF32R q.rect)).left <
          (intersectRect (toF32R cursorRect) (toF32R q.rect)).right ∧
        (intersectRect (toF32R cursorRect) (toF32R q.rect)).top <
          (intersectRect (toF32R cursorRect) (toF32R q.rect)).bottom →
        synthQuad (toF32R cursorRect) q = some
          { rect := { x := (intersectRect (toF32R cursorRect) (toF32R q.rect)).left,
                      y := (intersectRect (toF32R cursorRect) (toF32R q.rect)).top,
                      z := (intersectRect (toF32R cursorRect) (toF32R q.rect)).right -
                        (intersectRect (toF32R cursorRect) (toF32R q.rect)).left,
                      w := (intersectRect (toF32R cursorRect) (toF32R q.rect)).bottom -
                        (intersectRect (toF32R cursorRect) (toF32R q.rect)).top }
            tex := { x := q.tex.x +
                      ((intersectRect (toF32R cursorRect) (toF32R q.rect)).left - q.rect.x),
                     y := q.tex.y +
                      ((intersectRect (toF32R cursorRect) (toF32R q.rect)).top - q.rect.y),
                     z := (intersectRect (toF32R cursorRect) (toF32R q.rect)).right -
                       (intersectRect (toF32R cursorRect) (toF32R q.rect)).left,
                     w := (intersectRect (toF32R cursorRect) (toF32R q.rect)).bottom -
                       (intersectRect (toF32R cursorRect) (toF32R q.rect)).top }
            color := q.color ^^^ 0xc0c0c0
            shadingType := if q.shadingType = ShadingType.Passthrough
              then ShadingType.PassthroughInvert else q.shadingType }) ∧
      (¬((intersectRect (toF32R cursorRect) (toF32R q.rect)).left <
            (intersectRect (toF32R cursorRect) (toF32R q.rect)).right ∧
          (intersectRect (toF32R cursorRect) (toF32R q.rect)).top <
            (intersectRect (toF32R cursorRect) (toF32R q.rect)).bottom) →
        synthQuad (toF32R cursorRect) q = none)) := by
  constructor
  · unfold cursorInvertPass
    dsimp only
    rw [List.length_append]
    simp only [List.length_singleton, Nat.add_sub_cancel, List.take_left]
  · intro q
    constructor
    · intro h
      unfold synthQuad
      rw [if_pos h]
      rfl
    · intro h
      unfold synthQuad
      rw [if_neg h]

end BackendD3D11
